import Mathlib

set_option maxHeartbeats 1000000

/-!
Shallow embedding of `src/src/server/IoDispatchers.cpp` (console server
request dispatchers): `ConsoleCreateObject`, `ConsoleCloseObject`,
`_shouldAttemptHandoff`, `ConsoleHandleConnectionRequest`, and
`ConsoleClientDisconnectRoutine`.  External collaborators (driver
communication, handle allocation on buffers, COM activation, command
history, session initialization) are modelled as boolean success oracles;
everything the dispatcher itself does — control flow, state mutation,
rollback, lock acquisition, resource ownership — is translated directly
from the source.
-/

namespace ConsoleServer

/-- NTSTATUS success test: non-negative status values denote success. -/
def NT_SUCCESS (s : Int) : Bool := decide (0 ≤ s)

def STATUS_SUCCESS : Int := 0

/-- 0xC000000D as a signed 32-bit value. -/
def STATUS_INVALID_PARAMETER : Int := -1073741811

/-- 0xC0000001 as a signed 32-bit value; stands in for any failing
NTSTATUS produced by a collaborator (the dispatchers only test
`NT_SUCCESS`, never the exact failing code). -/
def STATUS_UNSUCCESSFUL : Int := -1073741823

def GENERIC_READ : Nat := 0x80000000
def GENERIC_WRITE : Nat := 0x40000000
def FILE_SHARE_READ : Nat := 0x1
def FILE_SHARE_WRITE : Nat := 0x2

def SW_HIDE : Nat := 0
def SW_SHOWMINIMIZED : Nat := 2
def SW_MINIMIZE : Nat := 6
def SW_SHOWMINNOACTIVE : Nat := 7
def SW_FORCEMINIMIZE : Nat := 11

/-- Trace events: console lock acquisition/release and mutations of the
shared session state (tagged with the mutating operation). -/
inductive Event where
  | lock
  | unlock
  | mutate (tag : String)
  deriving Repr, DecidableEq

/-- `depthOk es d` holds when, starting from lock depth `d`, the trace
never releases an unheld lock and never mutates shared state while the
lock depth is zero. -/
def depthOk : List Event → Nat → Bool
  | [], _ => true
  | Event.lock :: es, d => depthOk es (d + 1)
  | Event.unlock :: es, d => decide (0 < d) && depthOk es (d - 1)
  | Event.mutate _ :: es, d => decide (0 < d) && depthOk es d

/-- Final lock depth after running a trace from depth `d`. -/
def endDepth : List Event → Nat → Nat
  | [], d => d
  | Event.lock :: es, d => endDepth es (d + 1)
  | Event.unlock :: es, d => endDepth es (d - 1)
  | Event.mutate _ :: es, d => endDepth es d

/-- A trace is lock-disciplined when every mutation happens under the
lock, no unlock is unbalanced, and the depth returns to zero. -/
def lockDisciplined (es : List Event) : Bool :=
  depthOk es 0 && (endDepth es 0 == 0)

/-- Does the trace ever touch the console lock at all? -/
def touchesLock (es : List Event) : Bool :=
  es.any (fun e => decide (e = Event.lock) || decide (e = Event.unlock))

/- ------------------------------------------------------------------ -/
/- Object creation: `IoDispatchers::ConsoleCreateObject`              -/
/- ------------------------------------------------------------------ -/

/-- `CD_IO_OBJECT_TYPE_*` from the create-object request. -/
inductive ObjectType where
  | generic
  | currentInput
  | currentOutput
  | newOutput
  deriving Repr, DecidableEq

inductive HandleType where
  | input
  | output
  deriving Repr, DecidableEq

/-- `CD_CREATE_OBJECT_INFORMATION`: type hint, desired access, share mode. -/
structure CreateObjectInformation where
  objectType : ObjectType
  desiredAccess : Nat
  shareMode : Nat
  deriving Repr, DecidableEq

/-- Success oracles for the collaborators `ConsoleCreateObject` calls. -/
structure CreateEnv where
  allocInput : Bool
  allocOutput : Bool
  createScreenBuffer : Bool
  completeIo : Bool
  deriving Repr, DecidableEq

/-- One `AllocateIoHandle` call: which endpoint, and with what access
mask and share mode. -/
structure AllocCall where
  htype : HandleType
  access : Nat
  share : Nat
  deriving Repr, DecidableEq

structure CreateResult where
  replyStatus : Option Int
  returnedInline : Bool
  resolvedType : ObjectType
  handleAllocated : Bool
  handleTransferred : Bool
  handleDestroyed : Bool
  allocCalls : List AllocCall
  events : List Event
  deriving Repr, DecidableEq

/-- The generic-hint resolution at the top of `ConsoleCreateObject`:
a generic object resolves by `DesiredAccess & (GENERIC_READ | GENERIC_WRITE)`. -/
def resolveObjectType (info : CreateObjectInformation) : ObjectType :=
  if info.objectType = ObjectType.generic then
    if info.desiredAccess &&& (GENERIC_READ ||| GENERIC_WRITE) = GENERIC_READ then
      ObjectType.currentInput
    else if info.desiredAccess &&& (GENERIC_READ ||| GENERIC_WRITE) = GENERIC_WRITE then
      ObjectType.currentOutput
    else
      ObjectType.generic
  else
    info.objectType

/-- `IoDispatchers::ConsoleCreateObject`.  Locks, resolves the type hint,
allocates a handle on the matching endpoint (an unresolved generic falls
to the `default:` arm and fails with `STATUS_INVALID_PARAMETER`), and on
success publishes the handle to the driver: ownership transfers exactly
when `CompleteIo` succeeds, otherwise the scoped `unique_ptr` destroys
the handle. -/
def consoleCreateObject (info : CreateObjectInformation) (env : CreateEnv) : CreateResult :=
  let rt := resolveObjectType info
  let allocOutcome : Option Bool :=
    match rt with
    | ObjectType.currentInput => some env.allocInput
    | ObjectType.currentOutput => some env.allocOutput
    | ObjectType.newOutput => some env.createScreenBuffer
    | ObjectType.generic => none
  match allocOutcome with
  | none =>
      { replyStatus := some STATUS_INVALID_PARAMETER
        returnedInline := true
        resolvedType := rt
        handleAllocated := false
        handleTransferred := false
        handleDestroyed := false
        allocCalls := []
        events := [Event.lock, Event.unlock] }
  | some ok =>
      let call : AllocCall :=
        { htype := match rt with
                   | ObjectType.currentInput => HandleType.input
                   | _ => HandleType.output
          access := info.desiredAccess
          share := info.shareMode }
      if ok then
        { replyStatus := some STATUS_SUCCESS
          returnedInline := false
          resolvedType := rt
          handleAllocated := true
          handleTransferred := env.completeIo
          handleDestroyed := !env.completeIo
          allocCalls := [call]
          events := [Event.lock, Event.mutate "allocIoHandle", Event.unlock] }
      else
        { replyStatus := some STATUS_UNSUCCESSFUL
          returnedInline := true
          resolvedType := rt
          handleAllocated := false
          handleTransferred := false
          handleDestroyed := false
          allocCalls := [call]
          events := [Event.lock, Event.unlock] }

/- ------------------------------------------------------------------ -/
/- Object closure: `IoDispatchers::ConsoleCloseObject`                -/
/- ------------------------------------------------------------------ -/

structure CloseResult where
  replyStatus : Option Int
  events : List Event
  deriving Repr, DecidableEq

/-- `IoDispatchers::ConsoleCloseObject`: lock, `delete` the handle named
by the message (no validation of the token whatsoever), reply
`STATUS_SUCCESS`, unlock.  The token argument is never examined. -/
def consoleCloseObject (_objectHandleToken : Option Nat) : CloseResult :=
  { replyStatus := some STATUS_SUCCESS
    events := [Event.lock, Event.mutate "deleteHandle", Event.unlock] }

/- ------------------------------------------------------------------ -/
/- Handoff predicate: `_shouldAttemptHandoff`                         -/
/- ------------------------------------------------------------------ -/

/-- Immutable process-wide inputs to the dispatchers (launch arguments,
registered handoff CLSID, handoff-target status, and the result of the
`_isInteractiveUserSession` probe). -/
structure Globals0 where
  forceNoHandoff : Bool
  shouldCreateServerHandle : Bool
  isHeadless : Bool
  handoffClsidRegistered : Bool
  handoffTarget : Bool
  interactiveSession : Bool
  deriving Repr, DecidableEq

/-- `CONSOLE_API_CONNECTINFO` as produced by `ConsoleInitializeConnectInfo`,
with the result of `ConsoleConnectionDeservesVisibleWindow` attached. -/
structure ConnectInfo where
  consoleApp : Bool
  processGroupId : Nat
  appName : String
  useShowWindow : Bool
  showWindow : Nat
  deservesVisibleWindow : Bool
  deriving Repr, DecidableEq

/-- The `SW_*` values that block handoff in the `STARTF_USESHOWWINDOW`
switch of `_shouldAttemptHandoff`. -/
def isMinimizedOrHidden (sw : Nat) : Bool :=
  sw == SW_HIDE || sw == SW_SHOWMINIMIZED || sw == SW_MINIMIZE ||
  sw == SW_SHOWMINNOACTIVE || sw == SW_FORCEMINIMIZE

/-- `_shouldAttemptHandoff` (the `TIL_FEATURE_ATTEMPTHANDOFF_ENABLED`
build): the chain of early-return blocking conditions, in source order. -/
def shouldAttemptHandoff (g : Globals0) (initialized : Bool) (cac : ConnectInfo) : Bool :=
  if !g.interactiveSession then false
  else if g.forceNoHandoff then false
  else if g.shouldCreateServerHandle then false
  else if initialized then false
  else if !cac.consoleApp then false
  else if g.isHeadless then false
  else if !g.handoffClsidRegistered then false
  else if g.handoffTarget then false
  else if !cac.deservesVisibleWindow then false
  else if cac.useShowWindow && isMinimizedOrHidden cac.showWindow then false
  else true

/-- The disjunction of the nine blocking conditions of
`_shouldAttemptHandoff` (the visibility hint covers both the
`ConsoleConnectionDeservesVisibleWindow` probe and the explicit
`STARTF_USESHOWWINDOW` hide/minimize values). -/
def anyBlockingCondition (g : Globals0) (initialized : Bool) (cac : ConnectInfo) : Bool :=
  !g.interactiveSession || g.forceNoHandoff || g.shouldCreateServerHandle ||
  initialized || !cac.consoleApp || g.isHeadless || !g.handoffClsidRegistered ||
  g.handoffTarget || !cac.deservesVisibleWindow ||
  (cac.useShowWindow && isMinimizedOrHidden cac.showWindow)

/- ------------------------------------------------------------------ -/
/- Session state and the connection request                           -/
/- ------------------------------------------------------------------ -/

/-- `ConsoleProcessHandle` bookkeeping visible to the dispatcher:
identity, root flag, whether its primary handles were allocated, and
whether a command-history slot is associated with it. -/
structure ProcessRecord where
  processId : Nat
  threadId : Nat
  groupId : Nat
  rootProcess : Bool
  hasInputHandle : Bool
  hasOutputHandle : Bool
  historySlot : Bool
  deriving Repr, DecidableEq

/-- The global session state mutated under the console lock:
`gci.Flags` (`CONSOLE_INITIALIZED`, `CONSOLE_HAS_FOCUS`), the process
list, handle counts on the two active endpoints, the globally owned
input event, and a count of `ConsoleAllocateConsole` invocations. -/
structure ConsoleState where
  initialized : Bool
  hasFocus : Bool
  inVtIoMode : Bool
  processes : List ProcessRecord
  inputHandles : Nat
  outputHandles : Nat
  hInputEvent : Bool
  initializerRuns : Nat
  deriving Repr, DecidableEq

/-- Success oracles for every fallible collaborator touched by
`ConsoleHandleConnectionRequest`, in call order.  `initConnectInfo`
carries the validated connect descriptor when
`ConsoleInitializeConnectInfo` succeeds. -/
structure ConnEnv where
  initConnectInfo : Option ConnectInfo
  coActivate : Bool
  getServerHandle : Bool
  createPipe : Bool
  duplicateHandle : Bool
  establishHandoff : Bool
  threadStart : Bool
  allocProcessData : Bool
  allocateConsole : Bool
  historyAllocate : Bool
  allocInputHandle : Bool
  allocOutputHandle : Bool
  completeIo : Bool
  deriving Repr, DecidableEq

/-- Acquire/release counts for each resource duplicated or created for
one handoff attempt: the two pipe ends, the duplicated own-process
handle, and the representative client process handle. -/
structure ResourceLog where
  pipeOurAcq : Nat
  pipeOurRel : Nat
  pipeTheirAcq : Nat
  pipeTheirRel : Nat
  ourProcAcq : Nat
  ourProcRel : Nat
  clientProcAcq : Nat
  clientProcRel : Nat
  deriving Repr, DecidableEq

def emptyLog : ResourceLog := ⟨0, 0, 0, 0, 0, 0, 0, 0⟩

/-- Every acquired resource is released exactly once and nothing is
acquired (hence released) more than once. -/
def logBalanced (l : ResourceLog) : Bool :=
  (l.pipeOurRel == l.pipeOurAcq) && (l.pipeTheirRel == l.pipeTheirAcq) &&
  (l.ourProcRel == l.ourProcAcq) && (l.clientProcRel == l.clientProcAcq) &&
  decide (l.pipeOurAcq ≤ 1) && decide (l.pipeTheirAcq ≤ 1) &&
  decide (l.ourProcAcq ≤ 1) && decide (l.clientProcAcq ≤ 1)

structure HandoffResult where
  succeeded : Bool
  state : ConsoleState
  resLog : ResourceLog
  events : List Event
  deriving Repr, DecidableEq

/-- The `try` block of the handoff attempt in
`ConsoleHandleConnectionRequest`.  Steps in source order: COM
activation, `GetServerHandle`, `CreatePipe`, `DuplicateHandle`,
`EstablishHandoff`, then (on success) reset of the transferred
resources and the global input event, starting the signal-listener
thread, unlocking and terminating.  Any throw lands in the `catch`,
with the scoped owners (`wil::unique_hfile`, `wil::unique_process_handle`)
releasing exactly what was already acquired. -/
def handoffAttempt (env : ConnEnv) (st : ConsoleState) : HandoffResult :=
  if !env.coActivate then
    { succeeded := false, state := st, resLog := emptyLog, events := [] }
  else if !env.getServerHandle then
    { succeeded := false, state := st, resLog := emptyLog, events := [] }
  else if !env.createPipe then
    { succeeded := false, state := st, resLog := emptyLog, events := [] }
  else if !env.duplicateHandle then
    { succeeded := false, state := st, resLog := ⟨1, 1, 1, 1, 0, 0, 0, 0⟩, events := [] }
  else if !env.establishHandoff then
    { succeeded := false, state := st, resLog := ⟨1, 1, 1, 1, 1, 1, 0, 0⟩, events := [] }
  else if !env.threadStart then
    { succeeded := false
      state := { st with hInputEvent := false }
      resLog := ⟨1, 1, 1, 1, 1, 1, 1, 1⟩
      events := [Event.mutate "resetInputEvent"] }
  else
    { succeeded := true
      state := { st with hInputEvent := false }
      resLog := ⟨1, 0, 1, 1, 1, 1, 1, 0⟩
      events := [Event.mutate "resetInputEvent", Event.unlock] }

/-- Did the handoff protocol run to full completion (so that the server
process terminates instead of performing local bring-up)? -/
def handoffSucceeds (g : Globals0) (env : ConnEnv) (st0 : ConsoleState) (cac : ConnectInfo) : Bool :=
  shouldAttemptHandoff g st0.initialized cac && env.coActivate && env.getServerHandle &&
  env.createPipe && env.duplicateHandle && env.establishHandoff && env.threadStart

inductive ConnOutcome where
  | reply
  | pending
  | processExit
  deriving Repr, DecidableEq

structure ConnResult where
  outcome : ConnOutcome
  replyStatus : Option Int
  state : ConsoleState
  resLog : ResourceLog
  handoffAttempted : Bool
  allocCalls : List AllocCall
  events : List Event
  deriving Repr, DecidableEq

/-- All local bring-up collaborators succeed ("valid inputs"). -/
def localInputsValid (env : ConnEnv) : Bool :=
  env.allocProcessData && env.allocateConsole && env.historyAllocate &&
  env.allocInputHandle && env.allocOutputHandle && env.completeIo

/-- The local bring-up half of `ConsoleHandleConnectionRequest` (lines
413-504): everything after the handoff block, starting with
`AllocProcessData`.  The `wil::scope_exit` cleanup is inlined at each
return: when the tracked `Status` is failing it sets the reply status
and frees the history slot and process record; it always unlocks last.
The command-history `catch` returns with `Status` still successful, so
that path neither sets a reply status nor rolls anything back.
`st1` is the session state after the (possibly failed) handoff attempt;
`attempted`, `hlog` and `evH` carry the handoff attempt's bookkeeping
into the result. -/
def localBringUp (cac : ConnectInfo) (env : ConnEnv) (pid tid : Nat) (st1 : ConsoleState)
    (attempted : Bool) (hlog : ResourceLog) (evH : List Event) : ConnResult :=
      if !env.allocProcessData then
        { outcome := ConnOutcome.reply
          replyStatus := some STATUS_UNSUCCESSFUL
          state := st1
          resLog := hlog
          handoffAttempted := attempted
          allocCalls := []
          events := evH ++ [Event.unlock] }
      else
        let root := !st1.initialized
        let evB := evH ++ [Event.mutate "allocProcessData"] ++
          (if cac.consoleApp then [Event.mutate "notifyConsoleApplication"] else []) ++
          [Event.mutate "notifyStartApplication"]
        if !st1.initialized && !env.allocateConsole then
          { outcome := ConnOutcome.reply
            replyStatus := some STATUS_UNSUCCESSFUL
            state := { st1 with initializerRuns := st1.initializerRuns + 1 }
            resLog := hlog
            handoffAttempted := attempted
            allocCalls := []
            events := evB ++ [Event.mutate "sessionInitializer", Event.mutate "freeHistory",
                              Event.mutate "freeProcessData", Event.unlock] }
        else
          let st2 := if st1.initialized then st1
                     else { st1 with initialized := true, initializerRuns := st1.initializerRuns + 1 }
          let evC := evB ++ (if st1.initialized then []
                             else [Event.mutate "sessionInitializer", Event.mutate "setInitialized"])
          if !env.historyAllocate then
            let recNoHistory : ProcessRecord :=
              { processId := pid, threadId := tid, groupId := cac.processGroupId,
                rootProcess := root, hasInputHandle := false,
                hasOutputHandle := false, historySlot := false }
            { outcome := ConnOutcome.reply
              replyStatus := none
              state := { st2 with processes := st2.processes ++ [recNoHistory] }
              resLog := hlog
              handoffAttempted := attempted
              allocCalls := []
              events := evC ++ [Event.unlock] }
          else
            let evD := evC ++ [Event.mutate "allocHistory", Event.mutate "modifyFocus"]
            let callIn : AllocCall :=
              { htype := HandleType.input
                access := GENERIC_READ ||| GENERIC_WRITE
                share := FILE_SHARE_READ ||| FILE_SHARE_WRITE }
            if !env.allocInputHandle then
              { outcome := ConnOutcome.reply
                replyStatus := some STATUS_UNSUCCESSFUL
                state := st2
                resLog := hlog
                handoffAttempted := attempted
                allocCalls := [callIn]
                events := evD ++ [Event.mutate "freeHistory", Event.mutate "freeProcessData",
                                  Event.unlock] }
            else
              let callOut : AllocCall :=
                { htype := HandleType.output
                  access := GENERIC_READ ||| GENERIC_WRITE
                  share := FILE_SHARE_READ ||| FILE_SHARE_WRITE }
              if !env.allocOutputHandle then
                { outcome := ConnOutcome.reply
                  replyStatus := some STATUS_UNSUCCESSFUL
                  state := st2
                  resLog := hlog
                  handoffAttempted := attempted
                  allocCalls := [callIn, callOut]
                  events := evD ++ [Event.mutate "allocInputHandle", Event.mutate "freeHistory",
                                    Event.mutate "freeProcessData", Event.unlock] }
              else
                let recOk : ProcessRecord :=
                  { processId := pid, threadId := tid, groupId := cac.processGroupId,
                    rootProcess := root, hasInputHandle := true, hasOutputHandle := true,
                    historySlot := true }
                let evE := evD ++ [Event.mutate "allocInputHandle", Event.mutate "allocOutputHandle"]
                if !env.completeIo then
                  { outcome := ConnOutcome.pending
                    replyStatus := some STATUS_SUCCESS
                    state := st2
                    resLog := hlog
                    handoffAttempted := attempted
                    allocCalls := [callIn, callOut]
                    events := evE ++ [Event.mutate "freeHistory", Event.mutate "freeProcessData",
                                      Event.unlock] }
                else
                  let stOk := { st2 with
                                processes := st2.processes ++ [recOk]
                                inputHandles := st2.inputHandles + 1
                                outputHandles := st2.outputHandles + 1 }
                  { outcome := ConnOutcome.pending
                    replyStatus := some STATUS_SUCCESS
                    state := stOk
                    resLog := hlog
                    handoffAttempted := attempted
                    allocCalls := [callIn, callOut]
                    events := evE ++ [Event.unlock] }

/-- `IoDispatchers::ConsoleHandleConnectionRequest`: lock, validate the
connect descriptor (failure replies immediately through the scope-exit
cleanup), evaluate `_shouldAttemptHandoff` once and, when it accepts,
run the handoff attempt; a fully successful handoff unlocks and
terminates the process, any handoff failure is swallowed and the code
falls through to local bring-up. -/
def consoleHandleConnectionRequest (g : Globals0) (env : ConnEnv) (pid tid : Nat)
    (st0 : ConsoleState) : ConnResult :=
  match env.initConnectInfo with
  | none =>
      { outcome := ConnOutcome.reply
        replyStatus := some STATUS_UNSUCCESSFUL
        state := st0
        resLog := emptyLog
        handoffAttempted := false
        allocCalls := []
        events := [Event.lock, Event.unlock] }
  | some cac =>
    let attempted := shouldAttemptHandoff g st0.initialized cac
    let h := if attempted then handoffAttempt env st0
             else { succeeded := false, state := st0, resLog := emptyLog, events := [] }
    if h.succeeded then
      { outcome := ConnOutcome.processExit
        replyStatus := none
        state := h.state
        resLog := h.resLog
        handoffAttempted := attempted
        allocCalls := []
        events := [Event.lock] ++ h.events }
    else
      localBringUp cac env pid tid h.state attempted h.resLog ([Event.lock] ++ h.events)

/- ------------------------------------------------------------------ -/
/- Client disconnect: `IoDispatchers::ConsoleClientDisconnectRoutine` -/
/- ------------------------------------------------------------------ -/

structure DisconnectResult where
  replyStatus : Option Int
  state : ConsoleState
  events : List Event
  deriving Repr, DecidableEq

/-- `IoDispatchers::ConsoleClientDisconnectRoutine`: notify the
accessibility collaborator (when present), trace the detach, tear the
process down via `RemoveConsole`, reply `STATUS_SUCCESS`.  Note the
routine itself never calls `LockConsole`/`UnlockConsole`. -/
def consoleClientDisconnectRoutine (notifierPresent : Bool) (r : ProcessRecord)
    (st : ConsoleState) : DisconnectResult :=
  { replyStatus := some STATUS_SUCCESS
    state := { st with processes := st.processes.filter (fun p => decide (p ≠ r)) }
    events := (if notifierPresent then [Event.mutate "notifyEndApplication"] else []) ++
              [Event.mutate "removeConsole"] }

/- ------------------------------------------------------------------ -/
/- Sample inputs for concrete evaluations                             -/
/- ------------------------------------------------------------------ -/

def sampleConnectInfo : ConnectInfo :=
  { consoleApp := true, processGroupId := 100, appName := "cmd.exe",
    useShowWindow := false, showWindow := 1, deservesVisibleWindow := true }

def freshState : ConsoleState :=
  { initialized := false, hasFocus := false, inVtIoMode := false, processes := [],
    inputHandles := 0, outputHandles := 0, hInputEvent := true, initializerRuns := 0 }

def noHandoffGlobals : Globals0 :=
  { forceNoHandoff := true, shouldCreateServerHandle := false, isHeadless := false,
    handoffClsidRegistered := false, handoffTarget := false, interactiveSession := true }

def handoffGlobals : Globals0 :=
  { forceNoHandoff := false, shouldCreateServerHandle := false, isHeadless := false,
    handoffClsidRegistered := true, handoffTarget := false, interactiveSession := true }

def allGoodEnv : ConnEnv :=
  { initConnectInfo := some sampleConnectInfo, coActivate := true, getServerHandle := true,
    createPipe := true, duplicateHandle := true, establishHandoff := true, threadStart := true,
    allocProcessData := true, allocateConsole := true, historyAllocate := true,
    allocInputHandle := true, allocOutputHandle := true, completeIo := true }

def sampleRecord : ProcessRecord :=
  { processId := 100, threadId := 7, groupId := 100, rootProcess := true,
    hasInputHandle := true, hasOutputHandle := true, historySlot := true }

/- ------------------------------------------------------------------ -/
/- Theorems                                                           -/
/- ------------------------------------------------------------------ -/

/-- C6: a CreateObject request with the GENERIC type hint resolves to the
current-input object when the desired access is read-only, to the
current-output object when it is write-only, and for any other
read/write access combination the request fails with
`STATUS_INVALID_PARAMETER` and no handle is created. -/
theorem generic_create_resolution (info : CreateObjectInformation) (env : CreateEnv)
    (hg : info.objectType = ObjectType.generic) :
    (info.desiredAccess &&& (GENERIC_READ ||| GENERIC_WRITE) = GENERIC_READ →
      (consoleCreateObject info env).resolvedType = ObjectType.currentInput) ∧
    (info.desiredAccess &&& (GENERIC_READ ||| GENERIC_WRITE) = GENERIC_WRITE →
      (consoleCreateObject info env).resolvedType = ObjectType.currentOutput) ∧
    (info.desiredAccess &&& (GENERIC_READ ||| GENERIC_WRITE) ≠ GENERIC_READ →
     info.desiredAccess &&& (GENERIC_READ ||| GENERIC_WRITE) ≠ GENERIC_WRITE →
      (consoleCreateObject info env).replyStatus = some STATUS_INVALID_PARAMETER ∧
      (consoleCreateObject info env).handleAllocated = false ∧
      (consoleCreateObject info env).allocCalls = [] ∧
      (consoleCreateObject info env).returnedInline = true) := by
  refine ⟨?_, ?_, ?_⟩
  · intro h1
    simp only [consoleCreateObject, resolveObjectType, hg, h1, if_pos, if_true]
    cases env.allocInput <;> simp
  · intro h2
    simp only [consoleCreateObject, resolveObjectType, hg, h2, if_pos, if_true]
    rw [if_neg (by decide : ¬(GENERIC_WRITE = GENERIC_READ))]
    cases env.allocOutput <;> simp
  · intro hne hnw
    simp [consoleCreateObject, resolveObjectType, hg, if_neg hne, if_neg hnw]

/-- C6 witness: `GENERIC` with read-only access resolves to
current-input; `GENERIC` with read-write access fails with the
validation error and creates no handle. -/
theorem generic_create_resolution_witness :
    (consoleCreateObject ⟨ObjectType.generic, GENERIC_READ, 3⟩ ⟨true, true, true, true⟩).resolvedType
      = ObjectType.currentInput ∧
    (consoleCreateObject ⟨ObjectType.generic, GENERIC_READ ||| GENERIC_WRITE, 3⟩
        ⟨true, true, true, true⟩).replyStatus = some STATUS_INVALID_PARAMETER := by
  constructor
  · exact (generic_create_resolution ⟨ObjectType.generic, GENERIC_READ, 3⟩
      ⟨true, true, true, true⟩ rfl).1 (by decide)
  · exact ((generic_create_resolution ⟨ObjectType.generic, GENERIC_READ ||| GENERIC_WRITE, 3⟩
      ⟨true, true, true, true⟩ rfl).2.2 (by decide) (by decide)).1

/-- C8: when CreateObject successfully allocates a handle, ownership of
the handle transfers to the transport layer exactly when delivery
(`CompleteIo`) succeeds; when delivery fails the handle is destroyed
before the routine returns, and the two outcomes are mutually
exclusive, so no handle is leaked. -/
theorem create_handle_ownership (info : CreateObjectInformation) (env : CreateEnv)
    (hs : (consoleCreateObject info env).handleAllocated = true) :
    (consoleCreateObject info env).handleTransferred = env.completeIo ∧
    (consoleCreateObject info env).handleDestroyed = (!env.completeIo) ∧
    ¬((consoleCreateObject info env).handleTransferred = true ∧
      (consoleCreateObject info env).handleDestroyed = true) := by
  revert hs
  simp only [consoleCreateObject]
  split
  · intro hs; simp at hs
  · rename_i ok heq
    cases ok
    · intro hs; simp at hs
    · intro _
      refine ⟨rfl, rfl, ?_⟩
      cases env.completeIo <;> simp

/-- C8 witness: a successful current-input allocation with failing
delivery destroys the handle rather than transferring it. -/
theorem create_handle_ownership_witness :
    (consoleCreateObject ⟨ObjectType.currentInput, GENERIC_READ, 3⟩
        ⟨true, true, true, false⟩).handleAllocated = true ∧
    (consoleCreateObject ⟨ObjectType.currentInput, GENERIC_READ, 3⟩
        ⟨true, true, true, false⟩).handleDestroyed = (!false) := by
  exact ⟨by decide,
    (create_handle_ownership ⟨ObjectType.currentInput, GENERIC_READ, 3⟩
      ⟨true, true, true, false⟩ (by decide)).2.1⟩

/-- The handoff predicate is exactly the negation of the disjunction of
its blocking conditions. -/
theorem shouldAttempt_eq_not_blocking (g : Globals0) (init : Bool) (cac : ConnectInfo) :
    shouldAttemptHandoff g init cac = !anyBlockingCondition g init cac := by
  obtain ⟨f1, f2, f3, f4, f5, f6⟩ := g
  obtain ⟨c1, c2, c3, c4, c5, c6⟩ := cac
  cases hm : isMinimizedOrHidden c5 <;>
    simp only [shouldAttemptHandoff, anyBlockingCondition, hm] <;>
    revert f1 f2 f3 f4 f5 f6 init c1 c4 c6 <;> decide

/-- A session that is already initialized blocks handoff. -/
theorem shouldAttempt_initialized_false (g : Globals0) (cac : ConnectInfo) :
    shouldAttemptHandoff g true cac = false := by
  rw [shouldAttempt_eq_not_blocking]
  simp [anyBlockingCondition]

/-- If the predicate accepted, the session was not yet initialized. -/
theorem shouldAttempt_true_init_false (g : Globals0) (init : Bool) (cac : ConnectInfo)
    (h : shouldAttemptHandoff g init cac = true) : init = false := by
  cases init
  · rfl
  · rw [shouldAttempt_initialized_false] at h
    exact absurd h (by simp)

/-- The handoff attempt never touches any session state other than the
globally owned input event (and that only after `EstablishHandoff`
succeeded). -/
theorem handoffAttempt_preserves (env : ConnEnv) (st : ConsoleState) :
    (handoffAttempt env st).state.processes = st.processes ∧
    (handoffAttempt env st).state.inputHandles = st.inputHandles ∧
    (handoffAttempt env st).state.outputHandles = st.outputHandles ∧
    (handoffAttempt env st).state.initialized = st.initialized ∧
    (handoffAttempt env st).state.initializerRuns = st.initializerRuns := by
  unfold handoffAttempt
  split_ifs <;> exact ⟨rfl, rfl, rfl, rfl, rfl⟩

/-- The handoff attempt reaches process termination exactly when every
protocol step succeeds. -/
theorem handoffAttempt_succeeded_iff (env : ConnEnv) (st : ConsoleState) :
    (handoffAttempt env st).succeeded =
      (env.coActivate && env.getServerHandle && env.createPipe &&
       env.duplicateHandle && env.establishHandoff && env.threadStart) := by
  unfold handoffAttempt
  split_ifs <;> simp_all

/-- The dispatcher evaluates the handoff predicate on the validated
descriptor, and the `handoffAttempted` bookkeeping records its value. -/
theorem connRequest_handoffAttempted (g : Globals0) (env : ConnEnv) (pid tid : Nat)
    (st0 : ConsoleState) (cac : ConnectInfo) (henv : env.initConnectInfo = some cac) :
    (consoleHandleConnectionRequest g env pid tid st0).handoffAttempted =
      shouldAttemptHandoff g st0.initialized cac := by
  simp only [consoleHandleConnectionRequest, henv]
  repeat' split
  all_goals first
    | rfl
    | (unfold localBringUp; split_ifs <;> rfl)

/-- C7: the handoff decision predicate is monotone in its blocking
conditions: whenever any one of the nine blocking conditions holds
(non-interactive session, administratively disabled, forced local
hosting, session already initialized, attach-only request, headless
mode, no registered handoff target, already a handoff target, or a
hidden/minimized startup visibility hint), the predicate evaluates to
false — independently of every other condition — and the connection
dispatcher consequently never attempts handoff. -/
theorem handoff_blocking_forces_local (g : Globals0) (init : Bool) (cac : ConnectInfo)
    (hb : anyBlockingCondition g init cac = true) :
    shouldAttemptHandoff g init cac = false ∧
    ∀ (env : ConnEnv) (pid tid : Nat) (st0 : ConsoleState),
      env.initConnectInfo = some cac → st0.initialized = init →
      (consoleHandleConnectionRequest g env pid tid st0).handoffAttempted = false := by
  have hp : shouldAttemptHandoff g init cac = false := by
    rw [shouldAttempt_eq_not_blocking, hb]
    rfl
  refine ⟨hp, ?_⟩
  intro env pid tid st0 henv hinit
  rw [connRequest_handoffAttempted g env pid tid st0 cac henv, hinit, hp]

/-- C7 witness: with only the headless blocking condition set and every
other condition favourable, the predicate declines and a full
connection never attempts handoff. -/
theorem handoff_blocking_forces_local_witness :
    shouldAttemptHandoff { handoffGlobals with isHeadless := true } false sampleConnectInfo
      = false ∧
    (consoleHandleConnectionRequest { handoffGlobals with isHeadless := true } allGoodEnv
      100 7 freshState).handoffAttempted = false := by
  have h := handoff_blocking_forces_local { handoffGlobals with isHeadless := true }
    false sampleConnectInfo (by decide)
  exact ⟨h.1, h.2 allGoodEnv 100 7 freshState rfl rfl⟩

/-- A trace consisting solely of mutation events. -/
def onlyMutates (es : List Event) : Bool :=
  es.all (fun e => match e with
                   | Event.mutate _ => true
                   | _ => false)

theorem depthOk_append (es₁ es₂ : List Event) (d : Nat) :
    depthOk (es₁ ++ es₂) d = (depthOk es₁ d && depthOk es₂ (endDepth es₁ d)) := by
  induction es₁ generalizing d with
  | nil => simp [depthOk, endDepth]
  | cons e es ih => cases e <;> simp [depthOk, endDepth, ih, Bool.and_assoc]

theorem endDepth_append (es₁ es₂ : List Event) (d : Nat) :
    endDepth (es₁ ++ es₂) d = endDepth es₂ (endDepth es₁ d) := by
  induction es₁ generalizing d with
  | nil => simp [endDepth]
  | cons e es ih => cases e <;> simp [endDepth, ih]

theorem depthOk_of_onlyMutates (es : List Event) (d : Nat) (hd : 0 < d)
    (h : onlyMutates es = true) : depthOk es d = true := by
  induction es with
  | nil => rfl
  | cons e es ih =>
    cases e with
    | lock => simp [onlyMutates] at h
    | unlock => simp [onlyMutates] at h
    | mutate t =>
      simp only [onlyMutates, List.all_cons, Bool.and_eq_true] at h
      simp [depthOk, hd, ih h.2]

theorem endDepth_of_onlyMutates (es : List Event) (d : Nat)
    (h : onlyMutates es = true) : endDepth es d = d := by
  induction es with
  | nil => rfl
  | cons e es ih =>
    cases e with
    | lock => simp [onlyMutates] at h
    | unlock => simp [onlyMutates] at h
    | mutate t =>
      simp only [onlyMutates, List.all_cons, Bool.and_eq_true] at h
      simp [endDepth, ih h.2]

/-- A trace of the shape lock - mutations - tail is disciplined whenever
the tail is well-behaved from depth one. -/
theorem disciplined_sandwich (es L : List Event) (hm : onlyMutates es = true)
    (hL : depthOk L 1 = true) (hE : endDepth L 1 = 0) :
    lockDisciplined (Event.lock :: (es ++ L)) = true := by
  simp [lockDisciplined, depthOk, endDepth, depthOk_append, endDepth_append,
        depthOk_of_onlyMutates es 1 (by decide) hm, endDepth_of_onlyMutates es 1 hm, hL, hE]

/-- Every return path of local bring-up mutates only under the lock and
releases it exactly once at the end. -/
theorem localBringUp_disciplined (cac : ConnectInfo) (env : ConnEnv) (pid tid : Nat)
    (st1 : ConsoleState) (a : Bool) (lg : ResourceLog) (es : List Event)
    (hm : onlyMutates es = true) :
    lockDisciplined (localBringUp cac env pid tid st1 a lg (Event.lock :: es)).events = true := by
  unfold localBringUp
  split_ifs <;>
    simp only [List.cons_append, List.append_assoc, List.singleton_append, List.nil_append] <;>
    exact disciplined_sandwich es _ hm (by decide) (by decide)

/-- Any outcome of the handoff attempt: either it failed with a
mutation-only trace, or it fully succeeded and its trace ends by
releasing the lock before the terminal wait. -/
theorem handoffAttempt_events_shape (env : ConnEnv) (st : ConsoleState) :
    ((handoffAttempt env st).succeeded = false ∧
      onlyMutates (handoffAttempt env st).events = true) ∨
    ((handoffAttempt env st).succeeded = true ∧
      (handoffAttempt env st).events = [Event.mutate "resetInputEvent", Event.unlock]) := by
  unfold handoffAttempt
  split_ifs <;> simp [onlyMutates]

/-- The connection dispatcher's trace is lock-disciplined on every path
(on the terminating handoff path the lock is released before the wait). -/
theorem connRequest_events_disciplined (g : Globals0) (env : ConnEnv) (pid tid : Nat)
    (st0 : ConsoleState) :
    lockDisciplined (consoleHandleConnectionRequest g env pid tid st0).events = true := by
  cases henv : env.initConnectInfo with
  | none =>
      simp only [consoleHandleConnectionRequest, henv]
      decide
  | some cac =>
      simp only [consoleHandleConnectionRequest, henv]
      cases hA : shouldAttemptHandoff g st0.initialized cac with
      | false =>
          simp only [Bool.false_eq_true, if_false, List.append_nil]
          exact localBringUp_disciplined cac env pid tid st0 false emptyLog [] rfl
      | true =>
          simp only [if_true]
          rcases handoffAttempt_events_shape env st0 with ⟨hs, hm⟩ | ⟨hs, hev⟩
          · simp only [hs, Bool.false_eq_true, if_false, List.singleton_append]
            exact localBringUp_disciplined cac env pid tid (handoffAttempt env st0).state
              true (handoffAttempt env st0).resLog (handoffAttempt env st0).events hm
          · simp only [hs, if_true, hev]
            decide

/-- C2 counterexample: `ConsoleClientDisconnectRoutine` violates the
claim — at a concrete input it mutates shared state (accessibility
end-of-application notification and process teardown via
`RemoveConsole`) while the lock-held depth is zero, and it never
acquires or releases the session lock at all. -/
theorem disconnect_mutates_without_lock :
    lockDisciplined (consoleClientDisconnectRoutine true sampleRecord freshState).events
      = false ∧
    touchesLock (consoleClientDisconnectRoutine true sampleRecord freshState).events
      = false := by
  decide

/-- C2 amended: `ConsoleCreateObject`, `ConsoleCloseObject` and
`ConsoleHandleConnectionRequest` acquire the session lock before any
mutation of shared state and release it with balanced depth on every
path (the terminating-handoff path releases it before the final wait);
`ConsoleClientDisconnectRoutine`, by contrast, never touches the lock
itself and performs its teardown without acquiring it, delegating any
locking to the teardown collaborator. -/
theorem lock_discipline_per_routine :
    (∀ (info : CreateObjectInformation) (env : CreateEnv),
        lockDisciplined (consoleCreateObject info env).events = true) ∧
    (∀ (t : Option Nat), lockDisciplined (consoleCloseObject t).events = true) ∧
    (∀ (g : Globals0) (env : ConnEnv) (pid tid : Nat) (st0 : ConsoleState),
        lockDisciplined (consoleHandleConnectionRequest g env pid tid st0).events = true) ∧
    (∀ (b : Bool) (r : ProcessRecord) (st : ConsoleState),
        touchesLock (consoleClientDisconnectRoutine b r st).events = false) := by
  refine ⟨?_, ?_, ?_, ?_⟩
  · intro info env
    simp only [consoleCreateObject]
    split
    · rfl
    · split_ifs <;> rfl
  · intro t
    rfl
  · intro g env pid tid st0
    exact connRequest_events_disciplined g env pid tid st0
  · intro b r st
    cases b <;> rfl

/-- C5: once the session state is INITIALIZED, a connection request
never re-runs the Session Initializer (`ConsoleAllocateConsole`), and
the state stays INITIALIZED. -/
theorem initialized_session_not_reinitialized (g : Globals0) (env : ConnEnv) (pid tid : Nat)
    (st0 : ConsoleState) (hinit : st0.initialized = true) :
    (consoleHandleConnectionRequest g env pid tid st0).state.initializerRuns
      = st0.initializerRuns ∧
    (consoleHandleConnectionRequest g env pid tid st0).state.initialized = true := by
  cases henv : env.initConnectInfo with
  | none =>
      simp [consoleHandleConnectionRequest, henv, hinit]
  | some cac =>
      have hp : shouldAttemptHandoff g st0.initialized cac = false := by
        rw [hinit]
        exact shouldAttempt_initialized_false g cac
      simp only [consoleHandleConnectionRequest, henv, hp, Bool.false_eq_true, if_false]
      unfold localBringUp
      split_ifs <;> simp_all

/-- C5 witness: on an already-initialized session the dispatcher leaves
the initializer-run count untouched and the state initialized. -/
theorem initialized_session_not_reinitialized_witness :
    ({ freshState with initialized := true } : ConsoleState).initialized = true ∧
    (consoleHandleConnectionRequest noHandoffGlobals allGoodEnv 5 6
        { freshState with initialized := true }).state.initializerRuns
      = ({ freshState with initialized := true } : ConsoleState).initializerRuns := by
  exact ⟨rfl, (initialized_session_not_reinitialized noHandoffGlobals allGoodEnv 5 6
    { freshState with initialized := true } rfl).1⟩

/-- Local bring-up on a not-yet-initialized state with every
collaborator succeeding: success reply, state initialized, the new root
process record appended with both primary handles and a history slot,
and exactly one input-handle and one output-handle allocation, both with
full read/write access and full sharing. -/
theorem localBringUp_success (cac : ConnectInfo) (env : ConnEnv) (pid tid : Nat)
    (st1 : ConsoleState) (a : Bool) (lg : ResourceLog) (ev : List Event)
    (hI : st1.initialized = false)
    (h1 : env.allocProcessData = true) (h2 : env.allocateConsole = true)
    (h3 : env.historyAllocate = true) (h4 : env.allocInputHandle = true)
    (h5 : env.allocOutputHandle = true) (h6 : env.completeIo = true) :
    (localBringUp cac env pid tid st1 a lg ev).outcome = ConnOutcome.pending ∧
    (localBringUp cac env pid tid st1 a lg ev).replyStatus = some STATUS_SUCCESS ∧
    (localBringUp cac env pid tid st1 a lg ev).state =
      ⟨true, st1.hasFocus, st1.inVtIoMode,
       st1.processes ++ [⟨pid, tid, cac.processGroupId, true, true, true, true⟩],
       st1.inputHandles + 1, st1.outputHandles + 1, st1.hInputEvent,
       st1.initializerRuns + 1⟩ ∧
    (localBringUp cac env pid tid st1 a lg ev).allocCalls =
      [⟨HandleType.input, GENERIC_READ ||| GENERIC_WRITE, FILE_SHARE_READ ||| FILE_SHARE_WRITE⟩,
       ⟨HandleType.output, GENERIC_READ ||| GENERIC_WRITE, FILE_SHARE_READ ||| FILE_SHARE_WRITE⟩] ∧
    (localBringUp cac env pid tid st1 a lg ev).handoffAttempted = a ∧
    (localBringUp cac env pid tid st1 a lg ev).resLog = lg := by
  simp [localBringUp, hI, h1, h2, h3, h4, h5, h6]

/-- Local bring-up when the command-history allocation throws: the
request returns early with the reply status untouched, no handle
allocation is ever attempted, and the freshly allocated process record
(without history slot or handles) is left in the process list. -/
theorem localBringUp_history_failure (cac : ConnectInfo) (env : ConnEnv) (pid tid : Nat)
    (st1 : ConsoleState) (a : Bool) (lg : ResourceLog) (ev : List Event)
    (hap : env.allocProcessData = true)
    (hac : st1.initialized = true ∨ env.allocateConsole = true)
    (hh : env.historyAllocate = false) :
    (localBringUp cac env pid tid st1 a lg ev).outcome = ConnOutcome.reply ∧
    (localBringUp cac env pid tid st1 a lg ev).replyStatus = none ∧
    (localBringUp cac env pid tid st1 a lg ev).allocCalls = [] ∧
    (localBringUp cac env pid tid st1 a lg ev).state.processes =
      st1.processes ++ [⟨pid, tid, cac.processGroupId, !st1.initialized, false, false, false⟩] ∧
    (localBringUp cac env pid tid st1 a lg ev).state.inputHandles = st1.inputHandles ∧
    (localBringUp cac env pid tid st1 a lg ev).state.outputHandles = st1.outputHandles := by
  cases hI : st1.initialized with
  | true => simp [localBringUp, hI, hap, hh]
  | false =>
      rcases hac with hF | hT
      · rw [hI] at hF
        exact absurd hF (by simp)
      · simp [localBringUp, hI, hap, hT, hh]

/-- Local bring-up when everything succeeds except the final reply
delivery (`CompleteIo`): the reply status was already marked successful
and the routine still returns `nullptr`, but the command-history slot
and the process record are rolled back, leaving the process list and
both handle counters exactly as before the request. -/
theorem localBringUp_completion_failure (cac : ConnectInfo) (env : ConnEnv) (pid tid : Nat)
    (st1 : ConsoleState) (a : Bool) (lg : ResourceLog) (ev : List Event)
    (hap : env.allocProcessData = true)
    (hac : st1.initialized = true ∨ env.allocateConsole = true)
    (h3 : env.historyAllocate = true) (h4 : env.allocInputHandle = true)
    (h5 : env.allocOutputHandle = true) (h6 : env.completeIo = false) :
    (localBringUp cac env pid tid st1 a lg ev).outcome = ConnOutcome.pending ∧
    (localBringUp cac env pid tid st1 a lg ev).replyStatus = some STATUS_SUCCESS ∧
    (localBringUp cac env pid tid st1 a lg ev).state.processes = st1.processes ∧
    (localBringUp cac env pid tid st1 a lg ev).state.inputHandles = st1.inputHandles ∧
    (localBringUp cac env pid tid st1 a lg ev).state.outputHandles = st1.outputHandles ∧
    Event.mutate "freeHistory" ∈ (localBringUp cac env pid tid st1 a lg ev).events ∧
    Event.mutate "freeProcessData" ∈ (localBringUp cac env pid tid st1 a lg ev).events := by
  cases hI : st1.initialized with
  | true => simp [localBringUp, hI, hap, h3, h4, h5, h6]
  | false =>
      rcases hac with hF | hT
      · rw [hI] at hF
        exact absurd hF (by simp)
      · simp [localBringUp, hI, hap, hT, h3, h4, h5, h6]

/-- When the handoff protocol does not run to completion, the dispatcher
reduces to local bring-up on a state that agrees with the original on
everything except possibly the already-released input event. -/
theorem connRequest_eq_localBringUp (g : Globals0) (env : ConnEnv) (pid tid : Nat)
    (st0 : ConsoleState) (cac : ConnectInfo)
    (henv : env.initConnectInfo = some cac)
    (hns : handoffSucceeds g env st0 cac = false) :
    ∃ (st1 : ConsoleState) (lg : ResourceLog) (ev : List Event),
      consoleHandleConnectionRequest g env pid tid st0 =
        localBringUp cac env pid tid st1 (shouldAttemptHandoff g st0.initialized cac) lg ev ∧
      st1.processes = st0.processes ∧
      st1.inputHandles = st0.inputHandles ∧
      st1.outputHandles = st0.outputHandles ∧
      st1.initialized = st0.initialized ∧
      st1.initializerRuns = st0.initializerRuns := by
  cases hA : shouldAttemptHandoff g st0.initialized cac with
  | false =>
      refine ⟨st0, emptyLog, [Event.lock], ?_, rfl, rfl, rfl, rfl, rfl⟩
      simp [consoleHandleConnectionRequest, henv, hA]
  | true =>
      have hband : (env.coActivate && env.getServerHandle && env.createPipe &&
          env.duplicateHandle && env.establishHandoff && env.threadStart) = false := by
        unfold handoffSucceeds at hns
        rw [hA] at hns
        simpa using hns
      have hsucc : (handoffAttempt env st0).succeeded = false := by
        rw [handoffAttempt_succeeded_iff, hband]
      obtain ⟨hp, hi, ho, hI, hr⟩ := handoffAttempt_preserves env st0
      refine ⟨(handoffAttempt env st0).state, (handoffAttempt env st0).resLog,
        [Event.lock] ++ (handoffAttempt env st0).events, ?_, hp, hi, ho, hI, hr⟩
      simp [consoleHandleConnectionRequest, henv, hA, hsucc]

/-- A handoff attempt that fails at activation, server-handle retrieval,
pipe creation, handle duplication, or the `EstablishHandoff` call leaves
the session state untouched and releases every duplicated resource
exactly once. -/
theorem handoffAttempt_early_failure (env : ConnEnv) (st0 : ConsoleState)
    (hfail : env.coActivate = false ∨ env.getServerHandle = false ∨ env.createPipe = false ∨
             env.duplicateHandle = false ∨ env.establishHandoff = false) :
    (handoffAttempt env st0).succeeded = false ∧
    (handoffAttempt env st0).state = st0 ∧
    logBalanced (handoffAttempt env st0).resLog = true := by
  unfold handoffAttempt
  split_ifs with h1 h2 h3 h4 h5 h6
  · exact ⟨rfl, rfl, rfl⟩
  · exact ⟨rfl, rfl, rfl⟩
  · exact ⟨rfl, rfl, rfl⟩
  · exact ⟨rfl, rfl, rfl⟩
  · exact ⟨rfl, rfl, rfl⟩
  · simp_all
  · simp_all

/-- C1: when the handoff attempt fails at any step after the decision
predicate accepted (handler activation, server-handle retrieval, pipe
creation, handle duplication, or the `EstablishHandoff` call itself),
the failure is swallowed, the session state at the start of local
bring-up is exactly the state as if handoff had never been attempted,
every resource duplicated for the attempt is released exactly once (no
double release), and local bring-up then succeeds given valid inputs,
with a success reply and the root process fully set up. -/
theorem handoff_failure_swallowed_and_rolled_back
    (g : Globals0) (cac : ConnectInfo) (env : ConnEnv) (pid tid : Nat) (st0 : ConsoleState)
    (henv : env.initConnectInfo = some cac)
    (hpred : shouldAttemptHandoff g st0.initialized cac = true)
    (hfail : env.coActivate = false ∨ env.getServerHandle = false ∨ env.createPipe = false ∨
             env.duplicateHandle = false ∨ env.establishHandoff = false)
    (hlocal : localInputsValid env = true) :
    (handoffAttempt env st0).succeeded = false ∧
    (handoffAttempt env st0).state = st0 ∧
    logBalanced (handoffAttempt env st0).resLog = true ∧
    (consoleHandleConnectionRequest g env pid tid st0).outcome = ConnOutcome.pending ∧
    (consoleHandleConnectionRequest g env pid tid st0).replyStatus = some STATUS_SUCCESS ∧
    (consoleHandleConnectionRequest g env pid tid st0).state.initialized = true ∧
    (consoleHandleConnectionRequest g env pid tid st0).state.processes =
      st0.processes ++ [⟨pid, tid, cac.processGroupId, true, true, true, true⟩] := by
  obtain ⟨hs, hst, hlog⟩ := handoffAttempt_early_failure env st0 hfail
  have hI0 : st0.initialized = false := shouldAttempt_true_init_false g st0.initialized cac hpred
  obtain ⟨⟨⟨⟨⟨h1, h2⟩, h3⟩, h4⟩, h5⟩, h6⟩ :
      ((((env.allocProcessData = true ∧ env.allocateConsole = true) ∧
         env.historyAllocate = true) ∧ env.allocInputHandle = true) ∧
       env.allocOutputHandle = true) ∧ env.completeIo = true := by
    simpa [localInputsValid, Bool.and_eq_true, and_assoc] using hlocal
  have hred : consoleHandleConnectionRequest g env pid tid st0 =
      localBringUp cac env pid tid st0 true (handoffAttempt env st0).resLog
        ([Event.lock] ++ (handoffAttempt env st0).events) := by
    simp [consoleHandleConnectionRequest, henv, hpred, hs, hst]
  obtain ⟨o1, o2, o3, _, _, _⟩ := localBringUp_success cac env pid tid st0 true
    (handoffAttempt env st0).resLog ([Event.lock] ++ (handoffAttempt env st0).events)
    hI0 h1 h2 h3 h4 h5 h6
  rw [hred]
  exact ⟨hs, hst, hlog, o1, o2, by rw [o3], by rw [o3]⟩

/-- C1 witness: with every condition favourable, an `EstablishHandoff`
failure leaves the fresh state untouched and the subsequent local
bring-up replies success. -/
theorem handoff_failure_swallowed_witness :
    (handoffAttempt { allGoodEnv with establishHandoff := false } freshState).state
      = freshState ∧
    (consoleHandleConnectionRequest handoffGlobals
        { allGoodEnv with establishHandoff := false } 100 7 freshState).replyStatus
      = some STATUS_SUCCESS := by
  have h := handoff_failure_swallowed_and_rolled_back handoffGlobals sampleConnectInfo
    { allGoodEnv with establishHandoff := false } 100 7 freshState rfl (by decide)
    (Or.inr (Or.inr (Or.inr (Or.inr rfl)))) (by decide)
  exact ⟨h.2.1, h.2.2.2.2.1⟩

/-- C4: a valid console-app connection on a fresh, not-yet-initialized
session with handoff not attempted replies success, initializes the
session, creates exactly one process record with the root flag set, and
allocates exactly two handles — one input, one output — both with full
read/write access and full sharing. -/
theorem fresh_connection_success
    (g : Globals0) (cac : ConnectInfo) (env : ConnEnv) (pid tid : Nat) (st0 : ConsoleState)
    (henv : env.initConnectInfo = some cac)
    (_happ : cac.consoleApp = true)
    (hfresh : st0.initialized = false ∧ st0.processes = [] ∧
              st0.inputHandles = 0 ∧ st0.outputHandles = 0)
    (hpred : shouldAttemptHandoff g st0.initialized cac = false)
    (hlocal : localInputsValid env = true) :
    (consoleHandleConnectionRequest g env pid tid st0).replyStatus = some STATUS_SUCCESS ∧
    (consoleHandleConnectionRequest g env pid tid st0).outcome = ConnOutcome.pending ∧
    (consoleHandleConnectionRequest g env pid tid st0).state.initialized = true ∧
    (consoleHandleConnectionRequest g env pid tid st0).state.processes =
      [⟨pid, tid, cac.processGroupId, true, true, true, true⟩] ∧
    (consoleHandleConnectionRequest g env pid tid st0).state.inputHandles = 1 ∧
    (consoleHandleConnectionRequest g env pid tid st0).state.outputHandles = 1 ∧
    (consoleHandleConnectionRequest g env pid tid st0).allocCalls =
      [⟨HandleType.input, GENERIC_READ ||| GENERIC_WRITE, FILE_SHARE_READ ||| FILE_SHARE_WRITE⟩,
       ⟨HandleType.output, GENERIC_READ ||| GENERIC_WRITE, FILE_SHARE_READ ||| FILE_SHARE_WRITE⟩] := by
  obtain ⟨hI0, hP0, hIn0, hOut0⟩ := hfresh
  obtain ⟨⟨⟨⟨⟨h1, h2⟩, h3⟩, h4⟩, h5⟩, h6⟩ :
      ((((env.allocProcessData = true ∧ env.allocateConsole = true) ∧
         env.historyAllocate = true) ∧ env.allocInputHandle = true) ∧
       env.allocOutputHandle = true) ∧ env.completeIo = true := by
    simpa [localInputsValid, Bool.and_eq_true, and_assoc] using hlocal
  have hred : consoleHandleConnectionRequest g env pid tid st0 =
      localBringUp cac env pid tid st0 false emptyLog [Event.lock] := by
    simp [consoleHandleConnectionRequest, henv, hpred]
  obtain ⟨o1, o2, o3, o4, _, _⟩ := localBringUp_success cac env pid tid st0 false
    emptyLog [Event.lock] hI0 h1 h2 h3 h4 h5 h6
  rw [hred]
  refine ⟨o2, o1, by rw [o3], ?_, ?_, ?_, o4⟩
  · rw [o3]
    simp [hP0]
  · rw [o3]
    simp [hIn0]
  · rw [o3]
    simp [hOut0]

/-- C4 witness: the spec's end-to-end example — processId 100, threadId
7, a console app on a fresh session with handoff blocked — replies
success with one root process record and the two primary handles. -/
theorem fresh_connection_success_witness :
    (consoleHandleConnectionRequest noHandoffGlobals allGoodEnv 100 7 freshState).replyStatus
      = some STATUS_SUCCESS ∧
    (consoleHandleConnectionRequest noHandoffGlobals allGoodEnv 100 7 freshState).state.processes
      = [⟨100, 7, 100, true, true, true, true⟩] := by
  have h := fresh_connection_success noHandoffGlobals sampleConnectInfo allGoodEnv 100 7
    freshState rfl rfl ⟨rfl, rfl, rfl, rfl⟩ (by decide) (by decide)
  exact ⟨h.1, h.2.2.2.1⟩

/-- C3 counterexample: at a concrete input whose command-history
allocation fails (all other collaborators succeeding, fresh session,
no handoff), the connection does not complete with a success reply and
allocated handles — the reply status is left unset and no handle
allocation is ever attempted. -/
theorem history_failure_not_nonfatal :
    ¬((consoleHandleConnectionRequest noHandoffGlobals
          { allGoodEnv with historyAllocate := false } 100 7 freshState).replyStatus
        = some STATUS_SUCCESS ∧
      (consoleHandleConnectionRequest noHandoffGlobals
          { allGoodEnv with historyAllocate := false } 100 7 freshState).state.inputHandles = 1 ∧
      (consoleHandleConnectionRequest noHandoffGlobals
          { allGoodEnv with historyAllocate := false } 100 7 freshState).state.outputHandles = 1) ∧
    (consoleHandleConnectionRequest noHandoffGlobals
        { allGoodEnv with historyAllocate := false } 100 7 freshState).replyStatus = none ∧
    (consoleHandleConnectionRequest noHandoffGlobals
        { allGoodEnv with historyAllocate := false } 100 7 freshState).allocCalls = [] := by
  decide

/-- C3 amended: a command-history allocation failure is logged but it
aborts the rest of the connection instead of being non-fatal — the
request returns early with the reply status left untouched (neither
success nor error), the primary input and output handles are never
allocated, and the freshly created process record is left in place
rather than rolled back. -/
theorem history_failure_aborts_connection
    (g : Globals0) (cac : ConnectInfo) (env : ConnEnv) (pid tid : Nat) (st0 : ConsoleState)
    (henv : env.initConnectInfo = some cac)
    (hns : handoffSucceeds g env st0 cac = false)
    (hap : env.allocProcessData = true)
    (hac : st0.initialized = true ∨ env.allocateConsole = true)
    (hh : env.historyAllocate = false) :
    (consoleHandleConnectionRequest g env pid tid st0).outcome = ConnOutcome.reply ∧
    (consoleHandleConnectionRequest g env pid tid st0).replyStatus = none ∧
    (consoleHandleConnectionRequest g env pid tid st0).allocCalls = [] ∧
    (consoleHandleConnectionRequest g env pid tid st0).state.processes =
      st0.processes ++ [⟨pid, tid, cac.processGroupId, !st0.initialized, false, false, false⟩] ∧
    (consoleHandleConnectionRequest g env pid tid st0).state.inputHandles = st0.inputHandles ∧
    (consoleHandleConnectionRequest g env pid tid st0).state.outputHandles = st0.outputHandles := by
  obtain ⟨st1, lg, ev, heq, hp, hi, ho, hI, _⟩ :=
    connRequest_eq_localBringUp g env pid tid st0 cac henv hns
  have hac' : st1.initialized = true ∨ env.allocateConsole = true := by
    rw [hI]
    exact hac
  obtain ⟨o1, o2, o3, o4, o5, o6⟩ :=
    localBringUp_history_failure cac env pid tid st1
      (shouldAttemptHandoff g st0.initialized cac) lg ev hap hac' hh
  rw [heq]
  exact ⟨o1, o2, o3, by rw [o4, hp, hI], by rw [o5, hi], by rw [o6, ho]⟩

/-- C3 amended witness: concrete history-allocation failure on a fresh
session — reply untouched, no handles, the record left in the list. -/
theorem history_failure_aborts_connection_witness :
    (consoleHandleConnectionRequest noHandoffGlobals
        { allGoodEnv with historyAllocate := false } 100 7 freshState).replyStatus = none ∧
    (consoleHandleConnectionRequest noHandoffGlobals
        { allGoodEnv with historyAllocate := false } 100 7 freshState).state.processes
      = [⟨100, 7, 100, true, false, false, false⟩] := by
  have h := history_failure_aborts_connection noHandoffGlobals sampleConnectInfo
    { allGoodEnv with historyAllocate := false } 100 7 freshState rfl (by decide) rfl
    (Or.inr rfl) rfl
  exact ⟨h.2.1, h.2.2.2.1⟩

/-- C9: when every protocol-level step of a connection succeeds but the
final reply delivery (`CompleteIo`) fails, the now-orphaned state is
rolled back exactly as on an in-protocol failure: the command-history
slot and the process record are both freed, leaving the process list
and both handle counters unchanged, even though the reply status had
already been marked successful. -/
theorem completion_failure_rolls_back
    (g : Globals0) (cac : ConnectInfo) (env : ConnEnv) (pid tid : Nat) (st0 : ConsoleState)
    (henv : env.initConnectInfo = some cac)
    (hns : handoffSucceeds g env st0 cac = false)
    (hap : env.allocProcessData = true)
    (hac : st0.initialized = true ∨ env.allocateConsole = true)
    (h3 : env.historyAllocate = true) (h4 : env.allocInputHandle = true)
    (h5 : env.allocOutputHandle = true) (h6 : env.completeIo = false) :
    (consoleHandleConnectionRequest g env pid tid st0).outcome = ConnOutcome.pending ∧
    (consoleHandleConnectionRequest g env pid tid st0).replyStatus = some STATUS_SUCCESS ∧
    (consoleHandleConnectionRequest g env pid tid st0).state.processes = st0.processes ∧
    (consoleHandleConnectionRequest g env pid tid st0).state.inputHandles = st0.inputHandles ∧
    (consoleHandleConnectionRequest g env pid tid st0).state.outputHandles = st0.outputHandles ∧
    Event.mutate "freeHistory" ∈ (consoleHandleConnectionRequest g env pid tid st0).events ∧
    Event.mutate "freeProcessData" ∈ (consoleHandleConnectionRequest g env pid tid st0).events := by
  obtain ⟨st1, lg, ev, heq, hp, hi, ho, hI, _⟩ :=
    connRequest_eq_localBringUp g env pid tid st0 cac henv hns
  have hac' : st1.initialized = true ∨ env.allocateConsole = true := by
    rw [hI]
    exact hac
  obtain ⟨o1, o2, o3, o4, o5, o6, o7⟩ :=
    localBringUp_completion_failure cac env pid tid st1
      (shouldAttemptHandoff g st0.initialized cac) lg ev hap hac' h3 h4 h5 h6
  rw [heq]
  exact ⟨o1, o2, by rw [o3, hp], by rw [o4, hi], by rw [o5, ho], o6, o7⟩

/-- C9 witness: a concrete fresh-session connection whose reply delivery
fails is rolled back to an empty process list. -/
theorem completion_failure_rolls_back_witness :
    (consoleHandleConnectionRequest noHandoffGlobals
        { allGoodEnv with completeIo := false } 100 7 freshState).replyStatus
      = some STATUS_SUCCESS ∧
    (consoleHandleConnectionRequest noHandoffGlobals
        { allGoodEnv with completeIo := false } 100 7 freshState).state.processes = [] := by
  have h := completion_failure_rolls_back noHandoffGlobals sampleConnectInfo
    { allGoodEnv with completeIo := false } 100 7 freshState rfl (by decide) rfl
    (Or.inr rfl) rfl rfl rfl rfl
  exact ⟨h.2.1, h.2.2.1⟩

/-- C10: CloseObject never validates the handle token — the result is
the same for every token, including a null one — and it unconditionally
replies `STATUS_SUCCESS`. -/
theorem close_object_unconditional_success :
    ∀ (t t' : Option Nat),
      (consoleCloseObject t).replyStatus = some STATUS_SUCCESS ∧
      consoleCloseObject t = consoleCloseObject t' := by
  intro t t'
  exact ⟨rfl, rfl⟩

end ConsoleServer
